import Mathlib

/-!
Formal model of `youtube_playlist_core.py` (YouTube Playlist Finder core module).

The development shallowly embeds the four core components of the module —
`CacheManager`, `YouTubeAPI._make_request` with its wrappers, and the
`PlaylistFinder` orchestration (`find_playlists`,
`_check_playlists_sequential`, `_check_playlists_parallel`,
`get_statistics`) — as executable Lean functions, and proves or refutes the
specified properties about them.

Modelling conventions:
* Python dicts keyed by strings become insertion-ordered association lists
  (`lookupEntry` / `setEntry` mirror `d[k]` / `d[k] = v`).
* Python's `hashlib.md5(...).hexdigest()` is implemented in full (`md5Hex`)
  over byte lists, with 32-bit words as `Nat` reduced mod 2^32.
* Network calls are a provider behaviour passed in as a function; every
  observable side effect (cache lookup, rate-limiter wait, provider attempt,
  sleep, cache store, quota increment) is recorded in an event trace.
* `threading.Lock` is non-reentrant; the state transition that re-acquires a
  held lock is modelled as an explicit deadlock outcome, since the Python
  thread blocks forever at that point.
-/

/-- Association-list lookup, modelling Python `dict` read (`key in d` / `d[key]`). -/
def lookupEntry {α : Type} : List (String × α) → String → Option α
  | [], _ => none
  | (k, v) :: rest, key => if k = key then some v else lookupEntry rest key

/-- Association-list write, modelling Python `d[key] = v`: an existing key keeps
its position and is overwritten; a new key is appended (insertion order). -/
def setEntry {α : Type} : List (String × α) → String → α → List (String × α)
  | [], key, v => [(key, v)]
  | (k, w) :: rest, key, v =>
    if k = key then (k, v) :: rest else (k, w) :: setEntry rest key v

/-- Python `set.add` on an insertion-ordered list representation of a set. -/
def setAdd (l : List String) (x : String) : List String :=
  if x ∈ l then l else l ++ [x]

/-- The list `[start, start+1, ..., start+k-1]`, used to index loop iterations. -/
def natRange (start : Nat) : Nat → List Nat
  | 0 => []
  | k + 1 => start :: natRange (start + 1) k

/-! ### MD5 (as used by `hashlib.md5(...).hexdigest()` in `_make_request`) -/

/-- The 64 MD5 sine-derived round constants, `floor(2^32 * abs(sin(i+1)))`. -/
def md5K : List Nat :=
  [3614090360, 3905402710, 606105819, 3250441966, 4118548399, 1200080426,
   2821735955, 4249261313, 1770035416, 2336552879, 4294925233, 2304563134,
   1804603682, 4254626195, 2792965006, 1236535329, 4129170786, 3225465664,
   643717713, 3921069994, 3593408605, 38016083, 3634488961, 3889429448,
   568446438, 3275163606, 4107603335, 1163531501, 2850285829, 4243563512,
   1735328473, 2368359562, 4294588738, 2272392833, 1839030562, 4259657740,
   2763975236, 1272893353, 4139469664, 3200236656, 681279174, 3936430074,
   3572445317, 76029189, 3654602809, 3873151461, 530742520, 3299628645,
   4096336452, 1126891415, 2878612391, 4237533241, 1700485571, 2399980690,
   4293915773, 2240044497, 1873313359, 4264355552, 2734768916, 1309151649,
   4149444226, 3174756917, 718787259, 3951481745]

/-- The 64 MD5 per-round left-rotation amounts. -/
def md5S : List Nat :=
  [7, 12, 17, 22, 7, 12, 17, 22, 7, 12, 17, 22, 7, 12, 17, 22,
   5, 9, 14, 20, 5, 9, 14, 20, 5, 9, 14, 20, 5, 9, 14, 20,
   4, 11, 16, 23, 4, 11, 16, 23, 4, 11, 16, 23, 4, 11, 16, 23,
   6, 10, 15, 21, 6, 10, 15, 21, 6, 10, 15, 21, 6, 10, 15, 21]

/-- Reduce a `Nat` to a 32-bit word. -/
def m32 (x : Nat) : Nat := x % 4294967296

/-- Bitwise complement on 32-bit words (for `x < 2^32`). -/
def md5not (x : Nat) : Nat := 4294967295 - x

/-- Left rotation of a 32-bit word by `s` bits. -/
def rotl32 (x s : Nat) : Nat := m32 (x <<< s) ||| (x >>> (32 - s))

/-- The MD5 round function for step `i` (F, G, H, I by quarters). -/
def md5F (i b c d : Nat) : Nat :=
  if i < 16 then (b &&& c) ||| (md5not b &&& d)
  else if i < 32 then (d &&& b) ||| (md5not d &&& c)
  else if i < 48 then b ^^^ c ^^^ d
  else c ^^^ (b ||| md5not d)

/-- The MD5 message-word index for step `i`. -/
def md5G (i : Nat) : Nat :=
  if i < 16 then i
  else if i < 32 then (5 * i + 1) % 16
  else if i < 48 then (3 * i + 5) % 16
  else (7 * i) % 16

/-- One of the 64 MD5 steps on the running state `(a, b, c, d)`. -/
def md5Step (M : List Nat) (st : Nat × Nat × Nat × Nat) (i : Nat) :
    Nat × Nat × Nat × Nat :=
  let (a, b, c, d) := st
  let f := m32 (md5F i b c d + a + md5K.getD i 0 + M.getD (md5G i) 0)
  (d, m32 (b + rotl32 f (md5S.getD i 0)), b, c)

/-- Process one 512-bit block given as 16 little-endian 32-bit words. -/
def md5Block (st : Nat × Nat × Nat × Nat) (M : List Nat) : Nat × Nat × Nat × Nat :=
  let (a0, b0, c0, d0) := st
  let (a, b, c, d) := (List.range 64).foldl (md5Step M) (a0, b0, c0, d0)
  (m32 (a0 + a), m32 (b0 + b), m32 (c0 + c), m32 (d0 + d))

/-- Group a byte list into little-endian 32-bit words (4 bytes per word). -/
def toWordsLE : List Nat → List Nat
  | b0 :: b1 :: b2 :: b3 :: rest =>
    (b0 + 256 * b1 + 65536 * b2 + 16777216 * b3) :: toWordsLE rest
  | _ => []

/-- MD5 padding: append `0x80`, zero-pad to 56 mod 64 bytes, then the 64-bit
little-endian bit length. -/
def md5Pad (msg : List Nat) : List Nat :=
  let bitLen := 8 * msg.length
  let padZeros := (119 - msg.length % 64) % 64
  msg ++ [128] ++ List.replicate padZeros 0
      ++ (List.range 8).map (fun i => (bitLen >>> (8 * i)) % 256)

/-- Fold `md5Block` over the given number of 64-byte blocks. -/
def md5Blocks (st : Nat × Nat × Nat × Nat) : Nat → List Nat → Nat × Nat × Nat × Nat
  | 0, _ => st
  | n + 1, l => md5Blocks (md5Block st (toWordsLE (l.take 64))) n (l.drop 64)

/-- MD5 of a byte list, as the four 32-bit state words. -/
def md5 (msg : List Nat) : Nat × Nat × Nat × Nat :=
  let padded := md5Pad msg
  md5Blocks (1732584193, 4023233417, 2562383102, 271733878) (padded.length / 64) padded

/-- The four bytes of a 32-bit word, little-endian. -/
def wordBytesLE (w : Nat) : List Nat :=
  [w % 256, w / 256 % 256, w / 65536 % 256, w / 16777216 % 256]

/-- Lower-case hex digit for a value below 16. -/
def hexDigitChar (n : Nat) : Char := "0123456789abcdef".data.getD n '0'

/-- Two-digit lower-case hex rendering of one byte. -/
def byteToHex (b : Nat) : String :=
  String.mk [hexDigitChar (b / 16), hexDigitChar (b % 16)]

/-- `hashlib.md5(msg).hexdigest()`: the 32-character lower-case hex digest. -/
def md5Hex (msg : List Nat) : String :=
  let (a, b, c, d) := md5 msg
  String.join ((wordBytesLE a ++ wordBytesLE b ++ wordBytesLE c ++ wordBytesLE d).map byteToHex)

/-- ASCII bytes of a string (`str.encode()` for the ASCII strings used here). -/
def strBytes (s : String) : List Nat := s.data.map Char.toNat

/-! ### Cache key computation (`_make_request`, lines 180-182) -/

/-- A Python keyword-argument value as it occurs at the call sites of
`_make_request`: a string, an int, or `None`. -/
inductive PyVal where
  | str (s : String)
  | int (n : Nat)
  | none
deriving DecidableEq, Repr

/-- Python `repr` of a keyword-argument value (strings at these call sites are
ASCII without quote characters, so `repr` wraps them in single quotes). -/
def PyVal.pyRepr : PyVal → String
  | .str s => "\x27" ++ s ++ "\x27"
  | .int n => toString n
  | .none => "None"

/-- Python `str(kwargs)` for a keyword-argument dict: entries are rendered in
insertion order, exactly as CPython formats a dict. -/
def pyReprDict (kwargs : List (String × PyVal)) : String :=
  "\x7b" ++ String.intercalate ", "
      (kwargs.map (fun kv => "\x27" ++ kv.1 ++ "\x27: " ++ kv.2.pyRepr)) ++ "\x7d"

/-- The pre-hash cache-key input `f"{resource}.{method}_{kwargs}"`. -/
def cacheKeyInput (resource method : String) (kwargs : List (String × PyVal)) : String :=
  resource ++ "." ++ method ++ "_" ++ pyReprDict kwargs

/-- The cache key computed by `_make_request`:
`hashlib.md5(f"{resource}.{method}_{kwargs}".encode()).hexdigest()`. -/
def cache_key (resource method : String) (kwargs : List (String × PyVal)) : String :=
  md5Hex (strBytes (cacheKeyInput resource method kwargs))

/-- Parameter map `\x7bid: v, part: snippet\x7d` in one insertion order. -/
def kwA : List (String × PyVal) := [("id", .str "v"), ("part", .str "snippet")]

/-- The same parameter map as `kwA`, with the two parameters supplied in the
opposite order. -/
def kwB : List (String × PyVal) := [("part", .str "snippet"), ("id", .str "v")]

/-! ### CacheManager (lines 70-147) -/

/-- State of a `CacheManager`: the in-memory cache dict (`self.cache`, with the
per-entry `timestamp` elided — no modelled claim depends on TTL) and the
`self.cache_stats` hit/miss counters.  Entries always carry a payload because
`set` is the only writer and always stores a `data` field. -/
structure CacheManager (α : Type) where
  cache : List (String × α) := []
  hits : Nat := 0
  misses : Nat := 0
deriving DecidableEq, Repr

/-- `CacheManager.get` (lines 116-125): returns the cached payload and bumps
the hit counter, or bumps the miss counter.  Runs under `self._lock`, which it
acquires and releases normally. -/
def CacheManager.get {α : Type} (m : CacheManager α) (key : String) :
    Option α × CacheManager α :=
  match lookupEntry m.cache key with
  | some v => (some v, { m with hits := m.hits + 1 })
  | none => (none, { m with misses := m.misses + 1 })

/-- Outcome of `CacheManager.set`.  `set` runs its whole body holding
`self._lock` (a non-reentrant `threading.Lock`).  When the periodic-save branch
is taken it calls `_save_cache`, which begins with `with self._lock:` — the
same lock, already held — so the calling thread blocks forever.  That stuck
configuration is `saveDeadlocked` (carrying the state as mutated up to the
block); the normal exit is `returned`. -/
inductive SetResult (α : Type) where
  | returned (m : CacheManager α)
  | saveDeadlocked (m : CacheManager α)
deriving DecidableEq, Repr

/-- `CacheManager.set` (lines 127-137): store the value under the key, then
`if len(self.cache) % 10 == 0: self._save_cache()` — note the condition is on
the resulting dict size, not on the number of `set` calls, and that taking the
branch deadlocks on the non-reentrant lock. -/
def CacheManager.set {α : Type} (m : CacheManager α) (key : String) (value : α) :
    SetResult α :=
  let cache := setEntry m.cache key value
  if cache.length % 10 = 0 then .saveDeadlocked { m with cache := cache }
  else .returned { m with cache := cache }

/-- Result of `CacheManager.get_stats` (lines 139-147).  Python formats
`hit_rate` as the string `f"{rate:.1f}%"`; the model keeps the exact rational
percentage value that is formatted. -/
structure CacheStats where
  hits : Nat
  misses : Nat
  total_entries : Nat
  hit_rate : ℚ
deriving DecidableEq, Repr

/-- `CacheManager.get_stats`: `hit_rate = hits / total * 100` when any lookup
occurred, else `0`. -/
def CacheManager.get_stats {α : Type} (m : CacheManager α) : CacheStats :=
  let total := m.hits + m.misses
  { hits := m.hits
    misses := m.misses
    total_entries := m.cache.length
    hit_rate := if 0 < total then (m.hits : ℚ) / (total : ℚ) * 100 else 0 }

/-- Run a sequence of `set` calls from a given cache state.  Returns the final
state, the number of times `_save_cache` was invoked from `set`, and whether
the run deadlocked (a deadlocked `set` never returns, so later puts in the
sequence never happen). -/
def runPuts {α : Type} (m : CacheManager α) :
    List (String × α) → CacheManager α × Nat × Bool
  | [] => (m, 0, false)
  | (k, v) :: rest =>
    match CacheManager.set m k v with
    | .returned m' =>
      let r := runPuts m' rest
      (r.1, r.2.1, r.2.2)
    | .saveDeadlocked m' => (m', 1, true)

/-- Nine `set` calls with nine distinct keys. -/
def putsNine : List (String × Nat) :=
  (List.range 9).map (fun i => ("k" ++ toString i, 0))

/-- Ten `set` calls with ten distinct keys. -/
def putsTen : List (String × Nat) :=
  (List.range 10).map (fun i => ("k" ++ toString i, 0))

/-! ### YouTubeAPI and `_make_request` (lines 150-399) -/

/-- Outcome of one provider attempt, i.e. of one `request.execute()` call:
a successful response payload, an `HttpError` carrying `resp.status` and
whether the string `"quotaExceeded"` occurs in `str(e)`, or any other
exception. -/
inductive Outcome (α : Type) where
  | success (result : α)
  | httpError (status : Nat) (quotaInMessage : Bool)
  | failure
deriving DecidableEq, Repr

/-- How `_make_request` terminates.  `ok` is a normal return of a payload
(cached or fresh); `noResult` is the `return None` after the retry range is
exhausted without a success and without a raise; `quotaExceeded` is the raise
of `QuotaExceededException`; `errorRaised` is the re-raise of the underlying
error on the final attempt; `hang` means the call never returns because
`cache.set` deadlocked (see `SetResult`). -/
inductive ReqResult (α : Type) where
  | ok (result : α)
  | noResult
  | quotaExceeded
  | errorRaised
  | hang
deriving DecidableEq, Repr

/-- Observable side effects of `_make_request`, in order of occurrence. -/
inductive Event where
  | cacheLookup (hit : Bool)
  | rateLimiterWait
  | attempt (n : Nat)
  | sleep (seconds : Nat)
  | cacheStore
  | quotaIncrement
deriving DecidableEq, Repr

/-- State of a `YouTubeAPI` instance: the shared cache and the quota counter.
`self.max_retries = 3` is set in `__init__`. -/
structure YouTubeAPI (α : Type) where
  cache : CacheManager α := {}
  quota_used : Nat := 0
  max_retries : Nat := 3
deriving DecidableEq, Repr

/-- The retry loop of `_make_request` (lines 199-241), one recursion step per
iteration of `for attempt in range(self.max_retries)`.  The provider behaviour
maps the attempt number to that attempt's outcome.  `fuel` is the number of
iterations the range still yields (initially `max_retries`); reaching `0`
is the fall-through `return None` (line 241). -/
def YouTubeAPI.requestAttempts {α : Type} (provider : Nat → Outcome α)
    (key : String) (maxRetries : Nat) :
    Nat → Nat → YouTubeAPI α → ReqResult α × YouTubeAPI α × List Event
  | 0, _, api => (.noResult, api, [])
  | fuel + 1, attempt, api =>
    match provider attempt with
    | .success result =>
      match api.cache.set key result with
      | .returned c =>
        (.ok result, { api with cache := c, quota_used := api.quota_used + 1 },
         [.attempt attempt, .cacheStore, .quotaIncrement])
      | .saveDeadlocked c =>
        (.hang, { api with cache := c }, [.attempt attempt, .cacheStore])
    | .httpError status quotaInMessage =>
      if status = 403 ∧ quotaInMessage = true then
        (.quotaExceeded, api, [.attempt attempt])
      else if status = 429 then
        let r := YouTubeAPI.requestAttempts provider key maxRetries fuel (attempt + 1) api
        (r.1, r.2.1, [.attempt attempt, .sleep (2 ^ attempt)] ++ r.2.2)
      else if attempt = maxRetries - 1 then
        (.errorRaised, api, [.attempt attempt])
      else
        let r := YouTubeAPI.requestAttempts provider key maxRetries fuel (attempt + 1) api
        (r.1, r.2.1, [.attempt attempt, .sleep 1] ++ r.2.2)
    | .failure =>
      if attempt = maxRetries - 1 then
        (.errorRaised, api, [.attempt attempt])
      else
        let r := YouTubeAPI.requestAttempts provider key maxRetries fuel (attempt + 1) api
        (r.1, r.2.1, [.attempt attempt, .sleep 1] ++ r.2.2)

/-- `YouTubeAPI._make_request` (lines 179-241): compute the cache key, consult
the cache (returning a hit immediately), otherwise wait on the rate limiter
and run the retry loop.  The `safe_kwargs` redaction (lines 184-188) only
affects the debug log line and is not part of the returned data or the key. -/
def YouTubeAPI.make_request {α : Type} (provider : Nat → Outcome α)
    (api : YouTubeAPI α) (resource method : String)
    (kwargs : List (String × PyVal)) : ReqResult α × YouTubeAPI α × List Event :=
  let key := cache_key resource method kwargs
  match api.cache.get key with
  | (some cached, c) => (.ok cached, { api with cache := c }, [.cacheLookup true])
  | (none, c) =>
    let api' := { api with cache := c }
    let r := YouTubeAPI.requestAttempts provider key api.max_retries api.max_retries 0 api'
    (r.1, r.2.1, [.cacheLookup false, .rateLimiterWait] ++ r.2.2)

/-- Result of a Python call that can either return a value or block forever
(when a deadlocked `cache.set` is reached underneath it). -/
inductive PyResult (β : Type) where
  | val (b : β)
  | hang
deriving DecidableEq, Repr

/-- `VideoInfo` (lines 32-49).  `view_count`/`like_count` are the non-negative
ints produced by `int(stats.get(..., 0))`. -/
structure VideoInfo where
  id : String
  title : String
  channel_id : String
  channel_title : String
  description : String
  duration : String
  view_count : Nat
  like_count : Nat
  published_at : String
  thumbnail_url : String
  tags : List String
deriving DecidableEq, Repr

/-- `PlaylistInfo` (lines 52-67). -/
structure PlaylistInfo where
  id : String
  title : String
  channel_id : String
  channel_title : String
  description : String
  item_count : Nat
  published_at : String
  thumbnail_url : String
  privacy_status : String := "public"
deriving DecidableEq, Repr

/-- `YouTubeAPI.get_video_info` (lines 243-274).  The whole body is wrapped in
`try: ... except Exception: return None`, so every raised error — including
`QuotaExceededException` — is swallowed and turned into `None`.  `parse`
stands for the pure response unpacking of lines 252-271 (it returns `none`
when the response has no items). -/
def YouTubeAPI.get_video_info {α : Type} (provider : Nat → Outcome α)
    (parse : α → Option VideoInfo) (api : YouTubeAPI α) (video_id : String) :
    PyResult (Option VideoInfo) × YouTubeAPI α × List Event :=
  match YouTubeAPI.make_request provider api "videos" "list"
      [("part", .str "snippet,contentDetails,statistics"), ("id", .str video_id)] with
  | (.ok r, api', tr) => (.val (parse r), api', tr)
  | (.noResult, api', tr) => (.val Option.none, api', tr)
  | (.quotaExceeded, api', tr) => (.val Option.none, api', tr)
  | (.errorRaised, api', tr) => (.val Option.none, api', tr)
  | (.hang, api', tr) => (.hang, api', tr)

/-- The paginated `while True` loop of `YouTubeAPI.check_video_in_playlist`
(lines 306-335), one recursion step per page.  `items` and `nextToken` stand
for the pure extraction of `item['contentDetails']['videoId']` lists and
`response.get('nextPageToken')`.  `fuel` bounds the number of pages so the
model terminates; every run considered here uses finitely many pages.  Any
exception — including `QuotaExceededException` — is caught by the
`except Exception: break` (lines 331-333) and yields `False`. -/
def YouTubeAPI.checkPages {α : Type} (provider : Nat → Outcome α)
    (items : α → List String) (nextToken : α → Option String)
    (playlist_id video_id : String) :
    Nat → Option String → YouTubeAPI α → PyResult Bool × YouTubeAPI α × List Event
  | 0, _, api => (.val false, api, [])
  | fuel + 1, pageToken, api =>
    let kwargs := [("part", .str "contentDetails"), ("playlistId", .str playlist_id),
                   ("maxResults", .int 50),
                   ("pageToken", match pageToken with
                                 | some t => PyVal.str t
                                 | none => PyVal.none)]
    match YouTubeAPI.make_request provider api "playlistItems" "list" kwargs with
    | (.ok r, api', tr) =>
      if video_id ∈ items r then (.val true, api', tr)
      else
        match nextToken r with
        | some t =>
          let r' := YouTubeAPI.checkPages provider items nextToken playlist_id video_id
              fuel (some t) api'
          (r'.1, r'.2.1, tr ++ r'.2.2)
        | none => (.val false, api', tr)
    | (.noResult, api', tr) => (.val false, api', tr)
    | (.quotaExceeded, api', tr) => (.val false, api', tr)
    | (.errorRaised, api', tr) => (.val false, api', tr)
    | (.hang, api', tr) => (.hang, api', tr)

/-- `YouTubeAPI.check_video_in_playlist`: start the page loop with
`page_token = None`. -/
def YouTubeAPI.check_video_in_playlist {α : Type} (provider : Nat → Outcome α)
    (items : α → List String) (nextToken : α → Option String) (fuel : Nat)
    (api : YouTubeAPI α) (playlist_id video_id : String) :
    PyResult Bool × YouTubeAPI α × List Event :=
  YouTubeAPI.checkPages provider items nextToken playlist_id video_id fuel none api

/-- A provider behaviour whose every attempt fails with HTTP 403 and
`"quotaExceeded"` in the error body — the quota-exhausted provider. -/
def quotaProvider : Nat → Outcome Nat := fun _ => .httpError 403 true

/-- A fresh `YouTubeAPI` over opaque numeric payloads. -/
def apiFresh : YouTubeAPI Nat := {}

/-! ### PlaylistFinder (lines 431-774) -/

/-- `SearchStrategy` (lines 22-29). -/
inductive SearchStrategy where
  | exact_title
  | title_and_channel
  | channel_playlists
  | related_videos
  | keyword_search
  | popular_playlists
deriving DecidableEq, Repr

/-- The `value` of each `SearchStrategy` member. -/
def SearchStrategy.value : SearchStrategy → String
  | .exact_title => "exact_title"
  | .title_and_channel => "title_channel"
  | .channel_playlists => "channel_playlists"
  | .related_videos => "related_videos"
  | .keyword_search => "keyword_search"
  | .popular_playlists => "popular_playlists"

/-- The default strategy list installed by `find_playlists` when none is
given (lines 487-493). -/
def default_strategies : List SearchStrategy :=
  [.exact_title, .channel_playlists, .title_and_channel, .keyword_search]

/-- A fixed provider behaviour as seen through the `YouTubeAPI` methods the
orchestrator calls.  For a fixed provider these methods are deterministic
functions of their arguments, which is the premise of the mode-equivalence
and dedup properties; modelling them as pure functions abstracts the
caching/retry mechanics verified separately on `YouTubeAPI`. -/
structure FinderApi where
  get_video_info : String → Option VideoInfo
  search_by_strategy : SearchStrategy → VideoInfo → Nat → List String
  check_video_in_playlist : String → String → Bool
  get_playlist_info : String → Option PlaylistInfo

/-- Per-session state of a `PlaylistFinder`: `self.found_playlists`,
`self.checked_playlist_ids` (a set, kept in insertion order),
`self._stop_event`, plus two instrumentation traces of the run: the
arguments of every `_update_progress` invocation and the playlist IDs passed
to `api.check_video_in_playlist`. -/
structure PlaylistFinder where
  found_playlists : List PlaylistInfo := []
  checked_playlist_ids : List String := []
  stop_event : Bool := false
  progressTrace : List (String × Option Nat) := []
  membership_calls : List String := []
deriving DecidableEq, Repr

/-- `PlaylistFinder._update_progress` (lines 450-453), recorded in the trace
(the claims concern runs with a progress callback installed). -/
def PlaylistFinder.update_progress (st : PlaylistFinder) (message : String)
    (percent : Option Nat) : PlaylistFinder :=
  { st with progressTrace := st.progressTrace ++ [(message, percent)] }

/-- The net contribution of verifying one candidate: its `PlaylistInfo` when
the membership check succeeds and the metadata fetch returns data, else
nothing (lines 595-598 and 620-623). -/
def verdict (api : FinderApi) (video_id playlist_id : String) : Option PlaylistInfo :=
  if api.check_video_in_playlist playlist_id video_id then
    api.get_playlist_info playlist_id
  else none

/-- The loop of `_check_playlists_sequential` (lines 583-601): per candidate,
check the cancellation flag, skip IDs already checked, report progress
(`50 + int((i / len) * 50)`, with the float division-and-truncate embedded as
Nat floor division), run the membership check and metadata fetch, and record
the ID as checked.  `none` models the `SearchCancelled` raise. -/
def seqLoop (api : FinderApi) (video_id : String) (total : Nat) :
    List String → Nat → PlaylistFinder → List PlaylistInfo →
    Option (List PlaylistInfo × PlaylistFinder)
  | [], _, st, found => some (found, st)
  | playlist_id :: rest, i, st, found =>
    if st.stop_event then none
    else if playlist_id ∈ st.checked_playlist_ids then
      seqLoop api video_id total rest (i + 1) st found
    else
      let st := st.update_progress
        ("Checking playlist " ++ toString (i + 1) ++ "/" ++ toString total)
        (some (50 + i * 50 / total))
      let st := { st with membership_calls := st.membership_calls ++ [playlist_id] }
      let found := match verdict api video_id playlist_id with
                   | some info => found ++ [info]
                   | none => found
      let st := { st with
        checked_playlist_ids := setAdd st.checked_playlist_ids playlist_id }
      seqLoop api video_id total rest (i + 1) st found

/-- `PlaylistFinder._check_playlists_sequential` (lines 575-603). -/
def PlaylistFinder.check_playlists_sequential (st : PlaylistFinder)
    (api : FinderApi) (playlist_ids : List String) (video_id : String) :
    Option (List PlaylistInfo × PlaylistFinder) :=
  seqLoop api video_id playlist_ids.length playlist_ids 0 st []

/-- The fan-in loop of `_check_playlists_parallel` (lines 628-666), serialised
at task-completion points: the argument list is the order in which
`as_completed` yields the futures (a permutation of the submitted candidate
list), and each worker body (lines 615-626: cancellation/dedup test,
membership check, metadata fetch) is evaluated against the shared state as of
its completion — one admissible interleaving of the worker threads.  Per
completion the orchestrator checks the cancellation flag, bumps
`checked_count`, reports progress, collects the worker result, and adds the
ID to `checked_playlist_ids`. -/
def parLoop (api : FinderApi) (video_id : String) (total : Nat) :
    List String → Nat → PlaylistFinder → List PlaylistInfo →
    Option (List PlaylistInfo × PlaylistFinder)
  | [], _, st, found => some (found, st)
  | playlist_id :: rest, checked_count, st, found =>
    if st.stop_event then none
    else
      let c := checked_count + 1
      let st := st.update_progress
        ("Checking playlist " ++ toString c ++ "/" ++ toString total)
        (some (50 + c * 50 / total))
      let worker :=
        if st.stop_event ∨ playlist_id ∈ st.checked_playlist_ids then
          (st, Option.none)
        else
          ({ st with membership_calls := st.membership_calls ++ [playlist_id] },
           verdict api video_id playlist_id)
      let st := worker.1
      let found := match worker.2 with
                   | some info => found ++ [info]
                   | none => found
      let st := { st with
        checked_playlist_ids := setAdd st.checked_playlist_ids playlist_id }
      parLoop api video_id total rest c st found

/-- `PlaylistFinder._check_playlists_parallel` (lines 605-668), applied to the
completion order of the submitted candidates. -/
def PlaylistFinder.check_playlists_parallel (st : PlaylistFinder)
    (api : FinderApi) (completion_order : List String) (video_id : String) :
    Option (List PlaylistInfo × PlaylistFinder) :=
  parLoop api video_id completion_order.length completion_order 0 st []

/-- The candidate-collection loop of `find_playlists` (lines 499-515): per
strategy, check the cancellation flag, report progress
(`int((i / len(strategies)) * 50)` embedded as Nat floor division), run the
strategy, union its output into the running candidate set (`set.update`,
kept in insertion order — CPython set iteration order is unspecified, and
every property proved here is independent of the order chosen), and stop
early once the set reaches `max_playlists`. -/
def collectLoop (api : FinderApi) (video_info : VideoInfo) (n max_playlists : Nat) :
    List SearchStrategy → Nat → List String → PlaylistFinder →
    Option (List String × PlaylistFinder)
  | [], _, acc, st => some (acc, st)
  | strategy :: rest, i, acc, st =>
    if st.stop_event then none
    else
      let st := st.update_progress ("Strategy: " ++ strategy.value) (some (i * 50 / n))
      let ids := api.search_by_strategy strategy video_info max_playlists
      let acc := ids.foldl setAdd acc
      if max_playlists ≤ acc.length then some (acc, st)
      else collectLoop api video_info n max_playlists rest (i + 1) acc st

/-- How `find_playlists` terminates: `notFound` is the
`ValueError(f"Video ... not found")` raise, `cancelled` the `SearchCancelled`
raise, and `ok` a normal return carrying the confirmed playlists and the
finder's final session state. -/
inductive FindOutcome where
  | notFound
  | cancelled
  | ok (found : List PlaylistInfo) (final : PlaylistFinder)
deriving DecidableEq, Repr

/-- `PlaylistFinder.find_playlists` (lines 455-531): reset the session state,
fetch the video info (absent ⇒ `ValueError`), report 0%, install the default
strategies if none were given, collect candidates, truncate to
`max_playlists`, report 50%, verify candidates sequentially or in parallel,
report 100%, and return.  `completion_order` gives the order in which
parallel-mode futures complete; `stop_requested` models a `cancel_search`
arriving right after the reset (the flag is otherwise only set externally).
The final `self.cache_manager._save_cache()` (line 528) acquires a free lock
and returns; it does not affect the session state. -/
def PlaylistFinder.find_playlists (api : FinderApi)
    (completion_order : List String → List String) (video_id : String)
    (strategies : List SearchStrategy) (max_playlists : Nat)
    (parallel : Bool) (stop_requested : Bool) : FindOutcome :=
  let st : PlaylistFinder := { stop_event := stop_requested }
  match api.get_video_info video_id with
  | none => .notFound
  | some video_info =>
    let st := st.update_progress
      ("Searching for playlists containing: " ++ video_info.title) (some 0)
    let strategies := if strategies = [] then default_strategies else strategies
    match collectLoop api video_info strategies.length max_playlists strategies 0 [] st with
    | none => .cancelled
    | some (all_playlist_ids, st) =>
      let cands := all_playlist_ids.take max_playlists
      let st := st.update_progress
        ("Checking " ++ toString cands.length ++ " playlists...") (some 50)
      let result :=
        if parallel then st.check_playlists_parallel api (completion_order cands) video_id
        else st.check_playlists_sequential api cands video_id
      match result with
      | none => .cancelled
      | some (found, st) =>
        let st := st.update_progress "Search complete!" (some 100)
        .ok found st

/-- Result of `PlaylistFinder.get_statistics` (lines 767-774). -/
structure Statistics where
  api_quota_used : Nat
  playlists_checked : Nat
  playlists_found : Nat
  cache_stats : CacheStats
deriving DecidableEq, Repr

/-- `PlaylistFinder.get_statistics`: reads `self.api.quota_used`, the sizes of
the session's checked-ID set and of `self.found_playlists`, and the cache
statistics. -/
def PlaylistFinder.get_statistics {α : Type} (quota_used : Nat)
    (cache : CacheManager α) (st : PlaylistFinder) : Statistics :=
  { api_quota_used := quota_used
    playlists_checked := st.checked_playlist_ids.length
    playlists_found := st.found_playlists.length
    cache_stats := cache.get_stats }

/-! ### Concrete scenario used to witness the theorems -/

/-- A concrete target video. -/
def vi0 : VideoInfo :=
  { id := "v", title := "T", channel_id := "C", channel_title := "Ch"
    description := "", duration := "", view_count := 0, like_count := 0
    published_at := "", thumbnail_url := "", tags := [] }

/-- Metadata of playlist `P1` (the one that contains the video). -/
def info1 : PlaylistInfo :=
  { id := "P1", title := "L1", channel_id := "C", channel_title := "Ch"
    description := "", item_count := 1, published_at := "", thumbnail_url := "" }

/-- Metadata of playlist `P2` (does not contain the video). -/
def info2 : PlaylistInfo :=
  { id := "P2", title := "L2", channel_id := "C", channel_title := "Ch"
    description := "", item_count := 2, published_at := "", thumbnail_url := "" }

/-- A concrete fixed provider behaviour: every strategy surfaces the two
candidates `P1` and `P2` (so different strategies overlap), only `P1`
contains the video, and both playlists have metadata. -/
def api0 : FinderApi :=
  { get_video_info := fun _ => some vi0
    search_by_strategy := fun _ _ _ => ["P1", "P2"]
    check_video_in_playlist := fun playlist_id _ => playlist_id == "P1"
    get_playlist_info := fun playlist_id =>
      if playlist_id = "P1" then some info1 else some info2 }

/-- Parse and extractor functions for request wrappers over opaque numeric
payloads; never consulted in the quota-failure runs below, where no attempt
succeeds. -/
def noParse : Nat → Option VideoInfo := fun _ => Option.none

/-- Item extractor over opaque numeric payloads (see `noParse`). -/
def noItems : Nat → List String := fun _ => []

/-- Next-page-token extractor over opaque numeric payloads (see `noParse`). -/
def noNext : Nat → Option String := fun _ => Option.none

/-- The kwargs of the `videos.list` request issued by `get_video_info`. -/
def kwVids : List (String × PyVal) :=
  [("part", .str "snippet,contentDetails,statistics"), ("id", .str "v")]

/-- A `YouTubeAPI` whose cache already holds the payload `7` under the key of
the `videos.list` request with kwargs `kwA`. -/
def apiHit : YouTubeAPI Nat :=
  { cache := { cache := [(cache_key "videos" "list" kwA, 7)] } }

/-- A cache-manager state after one hit and one miss. -/
def cacheHalf : CacheManager Nat := { hits := 1, misses := 1 }

/-- The session state left by the sequential-mode `find_playlists` run of the
concrete scenario (computed by evaluation). -/
def stFindSeq0 : PlaylistFinder :=
  { found_playlists := []
    checked_playlist_ids := ["P1", "P2"]
    stop_event := false
    progressTrace := [("Searching for playlists containing: T", some 0),
                      ("Strategy: exact_title", some 0),
                      ("Strategy: channel_playlists", some 25),
                      ("Checking 2 playlists...", some 50),
                      ("Checking playlist 1/2", some 50),
                      ("Checking playlist 2/2", some 75),
                      ("Search complete!", some 100)]
    membership_calls := ["P1", "P2"] }

/-- The session state left by the parallel-mode `find_playlists` run of the
concrete scenario with reversed completion order (computed by evaluation). -/
def stFindPar0 : PlaylistFinder :=
  { found_playlists := []
    checked_playlist_ids := ["P2", "P1"]
    stop_event := false
    progressTrace := [("Searching for playlists containing: T", some 0),
                      ("Strategy: exact_title", some 0),
                      ("Strategy: channel_playlists", some 25),
                      ("Checking 2 playlists...", some 50),
                      ("Checking playlist 1/2", some 75),
                      ("Checking playlist 2/2", some 100),
                      ("Search complete!", some 100)]
    membership_calls := ["P2", "P1"] }

/-- The session state of `find_playlists` right after the reset and the
initial 0% progress report (lines 473-484). -/
def findStart (vi : VideoInfo) : PlaylistFinder :=
  PlaylistFinder.update_progress { stop_event := false }
    ("Searching for playlists containing: " ++ vi.title) (some 0)

/-- The progress entries emitted by the candidate-verification phase over `m`
candidates: in parallel mode the counter is `checked_count` (1-based), in
sequential mode the loop index (0-based). -/
def checkTr (par : Bool) (m : Nat) : List (String × Option Nat) :=
  (natRange 0 m).map (fun j =>
    ("Checking playlist " ++ toString (j + 1) ++ "/" ++ toString m,
     some (50 + (if par then j + 1 else j) * 50 / m)))

/-! ### Helper lemmas -/

theorem natRange_succ (s k : Nat) : natRange s (k + 1) = s :: natRange (s + 1) k := rfl

theorem mem_natRange : ∀ (k s x : Nat), x ∈ natRange s k ↔ s ≤ x ∧ x < s + k := by
  intro k
  induction k with
  | zero => intro s x; simp [natRange]
  | succ n ih => intro s x; simp [natRange, List.mem_cons, ih]; omega

theorem natRange_pairwise_lt : ∀ (k s : Nat), (natRange s k).Pairwise (· < ·) := by
  intro k
  induction k with
  | zero => intro s; simp [natRange]
  | succ n ih =>
    intro s
    rw [natRange_succ, List.pairwise_cons]
    refine ⟨fun y hy => ?_, ih (s + 1)⟩
    rw [mem_natRange] at hy
    omega

theorem pairwise_le_map_natRange (f : Nat → Nat)
    (hf : ∀ a b, a ≤ b → f a ≤ f b) (s k : Nat) :
    ((natRange s k).map f).Pairwise (· ≤ ·) := by
  refine List.Pairwise.map f (fun a b hab => hf a b (Nat.le_of_lt hab))
    (natRange_pairwise_lt k s)

theorem setAdd_nodup (l : List String) (x : String) (h : l.Nodup) :
    (setAdd l x).Nodup := by
  unfold setAdd
  split_ifs with hx
  · exact h
  · simp [List.nodup_append, h, hx]

theorem setAdd_of_not_mem {l : List String} {x : String} (h : x ∉ l) :
    setAdd l x = l ++ [x] := by
  unfold setAdd
  simp [h]

theorem foldl_setAdd_nodup :
    ∀ (ids acc : List String), acc.Nodup → (ids.foldl setAdd acc).Nodup := by
  intro ids
  induction ids with
  | nil => intro acc h; simpa using h
  | cons a rest ih => intro acc h; exact ih _ (setAdd_nodup acc a h)

theorem filterMap_snd_of_map_snd {tr : List (String × Option Nat)} {ps : List Nat}
    (h : tr.map Prod.snd = ps.map some) : tr.filterMap Prod.snd = ps := by
  induction tr generalizing ps with
  | nil => cases ps with
    | nil => simp
    | cons b bs => simp at h
  | cons a as ih =>
    cases ps with
    | nil => simp at h
    | cons b bs =>
      simp only [List.map_cons, List.cons.injEq] at h
      simp [List.filterMap_cons, h.1, ih h.2]

theorem seqLoop_spec (api : FinderApi) (video_id : String) (total : Nat) :
    ∀ (l : List String) (i : Nat) (st : PlaylistFinder) (found : List PlaylistInfo),
      st.stop_event = false → l.Nodup →
      (∀ p ∈ l, p ∉ st.checked_playlist_ids) →
      seqLoop api video_id total l i st found
        = some (found ++ l.filterMap (fun pid => verdict api video_id pid),
            { st with
              checked_playlist_ids := st.checked_playlist_ids ++ l,
              membership_calls := st.membership_calls ++ l,
              progressTrace := st.progressTrace
                ++ (natRange i l.length).map (fun j =>
                     ("Checking playlist " ++ toString (j + 1) ++ "/" ++ toString total,
                      some (50 + j * 50 / total))) }) := by
  intro l
  induction l with
  | nil =>
    intro i st found hstop _ _
    simp [seqLoop, natRange]
  | cons pid rest ih =>
    intro i st found hstop hnd hdis
    have hpid : pid ∉ st.checked_playlist_ids := hdis pid (by simp)
    have hndr : rest.Nodup := (List.nodup_cons.mp hnd).2
    have hpidr : pid ∉ rest := (List.nodup_cons.mp hnd).1
    have hdisr : ∀ p ∈ rest,
        p ∉ setAdd st.checked_playlist_ids pid := by
      intro p hp
      rw [setAdd_of_not_mem hpid]
      simp only [List.mem_append, List.mem_singleton]
      rintro (h | h)
      · exact hdis p (by simp [hp]) h
      · exact hpidr (h ▸ hp)
    have hIH := ih (i + 1)
      { st with
        progressTrace := st.progressTrace
          ++ [("Checking playlist " ++ toString (i + 1) ++ "/" ++ toString total,
               some (50 + i * 50 / total))]
        membership_calls := st.membership_calls ++ [pid]
        checked_playlist_ids := setAdd st.checked_playlist_ids pid }
      (match verdict api video_id pid with
       | some info => found ++ [info]
       | none => found)
      hstop hndr hdisr
    simp only [seqLoop, hstop, Bool.false_eq_true, if_false, hpid,
      PlaylistFinder.update_progress] at hIH ⊢
    rw [hIH]
    cases hv : verdict api video_id pid <;>
      simp [hv, List.filterMap_cons, setAdd_of_not_mem hpid, natRange_succ,
        List.append_assoc]

theorem parLoop_spec (api : FinderApi) (video_id : String) (total : Nat) :
    ∀ (l : List String) (i : Nat) (st : PlaylistFinder) (found : List PlaylistInfo),
      st.stop_event = false → l.Nodup →
      (∀ p ∈ l, p ∉ st.checked_playlist_ids) →
      parLoop api video_id total l i st found
        = some (found ++ l.filterMap (fun pid => verdict api video_id pid),
            { st with
              checked_playlist_ids := st.checked_playlist_ids ++ l,
              membership_calls := st.membership_calls ++ l,
              progressTrace := st.progressTrace
                ++ (natRange i l.length).map (fun j =>
                     ("Checking playlist " ++ toString (j + 1) ++ "/" ++ toString total,
                      some (50 + (j + 1) * 50 / total))) }) := by
  intro l
  induction l with
  | nil =>
    intro i st found hstop _ _
    simp [parLoop, natRange]
  | cons pid rest ih =>
    intro i st found hstop hnd hdis
    have hpid : pid ∉ st.checked_playlist_ids := hdis pid (by simp)
    have hndr : rest.Nodup := (List.nodup_cons.mp hnd).2
    have hpidr : pid ∉ rest := (List.nodup_cons.mp hnd).1
    have hdisr : ∀ p ∈ rest,
        p ∉ setAdd st.checked_playlist_ids pid := by
      intro p hp
      rw [setAdd_of_not_mem hpid]
      simp only [List.mem_append, List.mem_singleton]
      rintro (h | h)
      · exact hdis p (by simp [hp]) h
      · exact hpidr (h ▸ hp)
    have hIH := ih (i + 1)
      { st with
        progressTrace := st.progressTrace
          ++ [("Checking playlist " ++ toString (i + 1) ++ "/" ++ toString total,
               some (50 + (i + 1) * 50 / total))]
        membership_calls := st.membership_calls ++ [pid]
        checked_playlist_ids := setAdd st.checked_playlist_ids pid }
      (match verdict api video_id pid with
       | some info => found ++ [info]
       | none => found)
      hstop hndr hdisr
    simp only [parLoop, hstop, Bool.false_eq_true, if_false, false_or, hpid,
      PlaylistFinder.update_progress] at hIH ⊢
    rw [hIH]
    cases hv : verdict api video_id pid <;>
      simp [hv, List.filterMap_cons, setAdd_of_not_mem hpid, natRange_succ,
        List.append_assoc]

theorem collectLoop_spec (api : FinderApi) (vi : VideoInfo) (n mp : Nat) :
    ∀ (strats : List SearchStrategy) (i : Nat) (acc : List String) (st : PlaylistFinder),
      st.stop_event = false → acc.Nodup →
      ∃ (all : List String) (tr : List (String × Option Nat)) (k : Nat),
        collectLoop api vi n mp strats i acc st
          = some (all, { st with progressTrace := st.progressTrace ++ tr })
        ∧ tr.map Prod.snd = (natRange i k).map (fun j => some (j * 50 / n))
        ∧ k ≤ strats.length
        ∧ all.Nodup := by
  intro strats
  induction strats with
  | nil =>
    intro i acc st hstop hacc
    exact ⟨acc, [], 0, by simp [collectLoop, natRange], by simp [natRange], by simp, hacc⟩
  | cons strat rest ih =>
    intro i acc st hstop hacc
    have hacc' : (List.foldl setAdd acc (api.search_by_strategy strat vi mp)).Nodup :=
      foldl_setAdd_nodup _ _ hacc
    simp only [collectLoop, hstop, Bool.false_eq_true, if_false,
      PlaylistFinder.update_progress]
    by_cases hbreak : mp ≤ (List.foldl setAdd acc (api.search_by_strategy strat vi mp)).length
    · refine ⟨List.foldl setAdd acc (api.search_by_strategy strat vi mp),
        [("Strategy: " ++ strat.value, some (i * 50 / n))], 1, ?_, ?_, ?_, hacc'⟩
      · simp [hbreak]
      · simp [natRange_succ, natRange]
      · simp
    · obtain ⟨all, tr, k, heq, htr, hk, hnd⟩ :=
        ih (i + 1) (List.foldl setAdd acc (api.search_by_strategy strat vi mp))
          { st with progressTrace := st.progressTrace
              ++ [("Strategy: " ++ strat.value, some (i * 50 / n))] }
          hstop hacc'
      refine ⟨all, ("Strategy: " ++ strat.value, some (i * 50 / n)) :: tr, k + 1,
        ?_, ?_, ?_, hnd⟩
      · rw [if_neg hbreak]
        simp only [hstop] at heq
        rw [heq]
        simp [List.append_assoc]
      · simp [natRange_succ, htr]
      · simpa using Nat.succ_le_succ hk

theorem find_playlists_run (api : FinderApi) (order : List String → List String)
    (video_id : String) (strategies : List SearchStrategy) (mp : Nat) (par : Bool)
    (vi : VideoInfo) (all : List String) (st2 : PlaylistFinder)
    (hvi : api.get_video_info video_id = some vi)
    (hcollect : collectLoop api vi
        (if strategies = [] then default_strategies else strategies).length mp
        (if strategies = [] then default_strategies else strategies) 0 [] (findStart vi)
        = some (all, st2))
    (hstop2 : st2.stop_event = false)
    (hchk2 : st2.checked_playlist_ids = [])
    (hmem2 : st2.membership_calls = [])
    (hfound2 : st2.found_playlists = [])
    (hnd : (if par then order (all.take mp) else all.take mp).Nodup) :
    PlaylistFinder.find_playlists api order video_id strategies mp par false
      = .ok ((if par then order (all.take mp) else all.take mp).filterMap
               (fun pid => verdict api video_id pid))
          { found_playlists := []
            checked_playlist_ids := if par then order (all.take mp) else all.take mp
            stop_event := false
            progressTrace := st2.progressTrace
              ++ [("Checking " ++ toString (all.take mp).length ++ " playlists...", some 50)]
              ++ checkTr par (if par then order (all.take mp) else all.take mp).length
              ++ [("Search complete!", some 100)]
            membership_calls := if par then order (all.take mp) else all.take mp } := by
  have hc := hcollect
  simp only [findStart, PlaylistFinder.update_progress] at hc
  cases par
  case false =>
    simp only [if_false, Bool.false_eq_true] at hnd ⊢
    have hseq := seqLoop_spec api video_id (all.take mp).length (all.take mp) 0
      (PlaylistFinder.update_progress st2
        ("Checking " ++ toString (all.take mp).length ++ " playlists...") (some 50))
      [] (by simp [PlaylistFinder.update_progress, hstop2]) hnd
      (by simp [PlaylistFinder.update_progress, hchk2])
    simp only [PlaylistFinder.update_progress] at hseq
    simp only [PlaylistFinder.find_playlists, PlaylistFinder.update_progress, hvi,
      Bool.false_eq_true, if_false]
    rw [hc]
    simp only [PlaylistFinder.check_playlists_sequential]
    rw [hseq]
    simp [checkTr, hstop2, hchk2, hmem2, hfound2, List.append_assoc]
  case true =>
    simp only [if_true] at hnd ⊢
    have hpar := parLoop_spec api video_id (order (all.take mp)).length (order (all.take mp)) 0
      (PlaylistFinder.update_progress st2
        ("Checking " ++ toString (all.take mp).length ++ " playlists...") (some 50))
      [] (by simp [PlaylistFinder.update_progress, hstop2]) hnd
      (by simp [PlaylistFinder.update_progress, hchk2])
    simp only [PlaylistFinder.update_progress] at hpar
    simp only [PlaylistFinder.find_playlists, PlaylistFinder.update_progress, hvi, if_true]
    rw [hc]
    simp only [PlaylistFinder.check_playlists_parallel]
    rw [hpar]
    simp [checkTr, hstop2, hchk2, hmem2, hfound2, List.append_assoc]

set_option maxRecDepth 40000

theorem chainOfParts (A B : List Nat)
    (hA : A.Pairwise (· ≤ ·)) (hB : B.Pairwise (· ≤ ·))
    (hAlt : ∀ a ∈ A, a < 50) (hBge : ∀ b ∈ B, 50 ≤ b) (hBle : ∀ b ∈ B, b ≤ 100) :
    (0 :: (A ++ 50 :: (B ++ [100]))).Chain' (· ≤ ·) := by
  apply List.Pairwise.chain'
  rw [List.pairwise_cons]
  refine ⟨fun y _ => Nat.zero_le y, ?_⟩
  rw [List.pairwise_append]
  refine ⟨hA, ?_, ?_⟩
  · rw [List.pairwise_cons]
    refine ⟨fun y hy => ?_, ?_⟩
    · rcases List.mem_append.mp hy with h | h
      · exact hBge y h
      · simp at h; omega
    · rw [List.pairwise_append]
      refine ⟨hB, by simp, fun b hb c hc => ?_⟩
      simp at hc
      subst hc
      exact hBle b hb
  · intro a ha b hb
    have ha' := hAlt a ha
    rcases List.mem_cons.mp hb with rfl | h
    · omega
    rcases List.mem_append.mp h with h | h
    · have := hBge b h; omega
    · simp at h; omega

/-- C4: a request whose computed cache key is present in the cache returns the
cached payload immediately: the only side effect is the cache lookup itself
(which bumps the hit counter) — no rate-limiter wait, no provider attempt, no
retry sleep, no cache store, and the quota-used counter is unchanged. -/
theorem c4_cache_hit_fast_path {α : Type} (provider : Nat → Outcome α)
    (api : YouTubeAPI α) (resource method : String) (kwargs : List (String × PyVal))
    (v : α)
    (h : lookupEntry api.cache.cache (cache_key resource method kwargs) = some v) :
    YouTubeAPI.make_request provider api resource method kwargs
      = (.ok v, { api with cache := { api.cache with hits := api.cache.hits + 1 } },
         [Event.cacheLookup true]) := by
  simp [YouTubeAPI.make_request, CacheManager.get, h]

theorem c4_witness :
    YouTubeAPI.make_request quotaProvider apiHit "videos" "list" kwA
      = (.ok 7, { apiHit with cache := { apiHit.cache with hits := apiHit.cache.hits + 1 } },
         [Event.cacheLookup true]) :=
  c4_cache_hit_fast_path quotaProvider apiHit "videos" "list" kwA 7 (by decide)

/-- C1: with an empty cache and a provider whose calls fail with HTTP 403 and
`"quotaExceeded"` in the body, `_make_request` does raise `QuotaExceeded`
without retrying (single attempt in the trace) — but `get_video_info` swallows
the exception and returns `None`, and `check_video_in_playlist` swallows it
and returns `False`, after which a second candidate is still checked (its
trace contains a fresh provider attempt).  So the quota failure never
propagates out of a `find` call and further provider calls are made. -/
theorem c1_quota_exception_swallowed :
    ((YouTubeAPI.make_request quotaProvider apiFresh "videos" "list" kwVids).1
        = ReqResult.quotaExceeded
      ∧ (YouTubeAPI.make_request quotaProvider apiFresh "videos" "list" kwVids).2.2
        = [Event.cacheLookup false, Event.rateLimiterWait, Event.attempt 0])
    ∧ (YouTubeAPI.get_video_info quotaProvider noParse apiFresh "v").1
        = PyResult.val Option.none
    ∧ ((YouTubeAPI.check_video_in_playlist quotaProvider noItems noNext 1 apiFresh
          "P1" "v").1 = PyResult.val false
      ∧ (YouTubeAPI.check_video_in_playlist quotaProvider noItems noNext 1
          (YouTubeAPI.check_video_in_playlist quotaProvider noItems noNext 1 apiFresh
            "P1" "v").2.1 "P2" "v").1 = PyResult.val false
      ∧ Event.attempt 0 ∈ (YouTubeAPI.check_video_in_playlist quotaProvider noItems noNext 1
          (YouTubeAPI.check_video_in_playlist quotaProvider noItems noNext 1 apiFresh
            "P1" "v").2.1 "P2" "v").2.2) := by
  decide

/-- C5 (counterexample): ten consecutive `put` calls with the same key never
reach the persist step, although the claim requires a persist on the 10th call
regardless of overwrites — the code's trigger is the stored-entry count, which
stays at 1 here. -/
theorem c5_counterexample :
    (List.replicate 10 (("k", 0) : String × Nat)).length = 10
    ∧ (runPuts ({} : CacheManager Nat) (List.replicate 10 (("k", 0) : String × Nat))).2
        = (0, false) := by
  decide

/-- C5 (amended): `set` invokes the persist step (`_save_cache`) exactly on
those calls after which the number of stored entries is divisible by 10 —
overwrites do not advance that count — and the invocation then deadlocks on
the non-reentrant lock rather than completing. -/
theorem c5_save_invoked_iff_size_multiple_of_ten {α : Type} (m : CacheManager α)
    (key : String) (value : α) :
    (∃ m', CacheManager.set m key value = .saveDeadlocked m')
      ↔ (setEntry m.cache key value).length % 10 = 0 := by
  unfold CacheManager.set
  by_cases h : (setEntry m.cache key value).length % 10 = 0 <;> simp [h]

/-- C10: `set` does not always return: starting from an empty cache, the
first nine distinct-key insertions return normally, but the tenth reaches
`_save_cache`, which re-acquires the non-reentrant lock already held by `set`
and blocks the calling thread forever. -/
theorem c10_tenth_distinct_insertion_deadlocks :
    (runPuts ({} : CacheManager Nat) putsNine).2 = (0, false)
    ∧ (runPuts ({} : CacheManager Nat) putsTen).2 = (1, true) := by
  decide

/-- C6 (counterexample): the two kwargs lists `kwA` and `kwB` are the same
parameter map (a permutation of each other) supplied in different orders, yet
they hash to different cache keys, because the key hashes the
insertion-ordered dict rendering. -/
theorem c6_counterexample :
    kwA.Perm kwB ∧ cache_key "videos" "list" kwA ≠ cache_key "videos" "list" kwB :=
  ⟨by decide, by decide⟩

/-- C6 (amended): the cache key is a deterministic hash of the
insertion-ordered textual rendering of (resource, method, parameter map):
invocations whose parameter maps render identically (in particular, identical
ordered parameter sequences) get the same key, while reordering the map can
change it (see the counterexample). -/
theorem c6_key_determined_by_rendered_kwargs (resource method : String)
    (kw kw' : List (String × PyVal)) (h : pyReprDict kw = pyReprDict kw') :
    cache_key resource method kw = cache_key resource method kw' := by
  unfold cache_key cacheKeyInput
  rw [h]

theorem c6_amended_witness :
    pyReprDict kwA = pyReprDict kwA
    ∧ cache_key "videos" "list" kwA = cache_key "videos" "list" kwA :=
  ⟨rfl, c6_key_determined_by_rendered_kwargs "videos" "list" kwA kwA rfl⟩

/-- C7 (counterexample): after one hit and one miss, `get_stats` reports a
hit rate of `50` (the percentage that Python formats as `"50.0%"`), not the
ratio `hits / (hits + misses) = 1/2` the claim states. -/
theorem c7_counterexample :
    (CacheManager.get_stats cacheHalf).hit_rate = 50
    ∧ (CacheManager.get_stats cacheHalf).hit_rate
        ≠ (cacheHalf.hits : ℚ) / ((cacheHalf.hits : ℚ) + (cacheHalf.misses : ℚ)) := by
  constructor <;> norm_num [CacheManager.get_stats, cacheHalf]

/-- C7 (amended): `get_stats` reports the hit rate as the percentage
`100 * hits / (hits + misses)` (formatted with one decimal and a percent sign
in the Python output), `0` when no lookups occurred; it always lies in
`[0, 100]`. -/
theorem c7_hit_rate_is_percentage {α : Type} (m : CacheManager α) :
    ((CacheManager.get_stats m).hit_rate
        = if 0 < m.hits + m.misses
          then (m.hits : ℚ) / ((m.hits + m.misses : Nat) : ℚ) * 100 else 0)
    ∧ 0 ≤ (CacheManager.get_stats m).hit_rate
    ∧ (CacheManager.get_stats m).hit_rate ≤ 100 := by
  refine ⟨rfl, ?_, ?_⟩
  · unfold CacheManager.get_stats
    dsimp only
    split_ifs with h
    · positivity
    · exact le_refl 0
  · unfold CacheManager.get_stats
    dsimp only
    split_ifs with h
    · have hpos : (0 : ℚ) < ((m.hits + m.misses : Nat) : ℚ) := by exact_mod_cast h
      have hle : (m.hits : ℚ) ≤ ((m.hits + m.misses : Nat) : ℚ) := by
        exact_mod_cast Nat.le_add_right m.hits m.misses
      calc (m.hits : ℚ) / ((m.hits + m.misses : Nat) : ℚ) * 100
          ≤ 1 * 100 := by
            apply mul_le_mul_of_nonneg_right _ (by norm_num)
            exact (div_le_one hpos).mpr hle
        _ = 100 := by norm_num
    · norm_num

theorem progress_tail_bounds (p : Bool) (M : Nat) :
    (∀ b ∈ (natRange 0 M).map (fun j => 50 + (if p then j + 1 else j) * 50 / M), 50 ≤ b)
    ∧ (∀ b ∈ (natRange 0 M).map (fun j => 50 + (if p then j + 1 else j) * 50 / M),
        b ≤ 100) := by
  constructor
  · intro b hb
    simp only [List.mem_map] at hb
    obtain ⟨j, hj, rfl⟩ := hb
    exact Nat.le_add_right 50 _
  · intro b hb
    simp only [List.mem_map] at hb
    obtain ⟨j, hj, rfl⟩ := hb
    rw [mem_natRange] at hj
    have hM : 0 < M := by omega
    have hq : (if p then j + 1 else j) ≤ M := by
      cases p
      · simpa using (by omega : j ≤ M)
      · simpa using (by omega : j + 1 ≤ M)
    have hdiv : (if p then j + 1 else j) * 50 / M ≤ M * 50 / M :=
      Nat.div_le_div_right (Nat.mul_le_mul_right 50 hq)
    have hMM : M * 50 / M = 50 := Nat.mul_div_cancel_left 50 hM
    omega

theorem getLast_of_progress_shape (A B : List Nat) :
    ((0 : Nat) :: (A ++ 50 :: (B ++ [100]))).getLast? = some 100 := by
  have h : (0 : Nat) :: (A ++ 50 :: (B ++ [100])) = (0 :: (A ++ 50 :: B)) ++ [100] := by
    simp [List.append_assoc]
  rw [h]
  exact List.getLast?_concat _

/-- C9: in any completed `find_playlists` run (either mode, any permutation
completion order), the sequence of percentages passed to the progress
callback is monotonically non-decreasing, starts at 0 and ends at 100. -/
theorem c9_progress_monotone (api : FinderApi) (order : List String → List String)
    (video_id : String) (strategies : List SearchStrategy) (mp : Nat) (par : Bool)
    (hord : ∀ l : List String, (order l).Perm l) :
    ∀ fs ss,
      PlaylistFinder.find_playlists api order video_id strategies mp par false
        = .ok fs ss →
      (ss.progressTrace.filterMap Prod.snd).Chain' (· ≤ ·)
      ∧ (ss.progressTrace.filterMap Prod.snd).head? = some 0
      ∧ (ss.progressTrace.filterMap Prod.snd).getLast? = some 100 := by
  intro fs ss h
  cases hv : api.get_video_info video_id with
  | none => simp [PlaylistFinder.find_playlists, hv] at h
  | some vi =>
    obtain ⟨all, tr, k, hcollect, htr, hk, hnd⟩ :=
      collectLoop_spec api vi
        (if strategies = [] then default_strategies else strategies).length mp
        (if strategies = [] then default_strategies else strategies) 0 []
        (findStart vi) rfl List.nodup_nil
    have hnpos : 0 < (if strategies = [] then default_strategies else strategies).length := by
      by_cases hs : strategies = []
      · simp [hs, default_strategies]
      · simpa [hs] using List.length_pos.mpr hs
    have hndtake : (all.take mp).Nodup := hnd.sublist (List.take_sublist mp all)
    have hndord : (order (all.take mp)).Nodup := (hord (all.take mp)).symm.nodup hndtake
    have hndlist : (if par then order (all.take mp) else all.take mp).Nodup := by
      cases par
      · simpa using hndtake
      · simpa using hndord
    have hrun := find_playlists_run api order video_id strategies mp par vi all _
      hv hcollect rfl rfl rfl rfl hndlist
    rw [hrun] at h
    simp only [FindOutcome.ok.injEq] at h
    obtain ⟨-, hss⟩ := h
    subst hss
    have hA : tr.filterMap Prod.snd = (natRange 0 k).map (fun j => j * 50
        / (if strategies = [] then default_strategies else strategies).length) := by
      apply filterMap_snd_of_map_snd
      rw [htr]
      simp [List.map_map, Function.comp]
    have hB : (checkTr par
          (if par then order (all.take mp) else all.take mp).length).filterMap Prod.snd
        = (natRange 0 (if par then order (all.take mp) else all.take mp).length).map
            (fun j => 50 + (if par then j + 1 else j) * 50
              / (if par then order (all.take mp) else all.take mp).length) := by
      apply filterMap_snd_of_map_snd
      simp [checkTr, List.map_map, Function.comp]
    have hApw : ((natRange 0 k).map (fun j => j * 50
        / (if strategies = [] then default_strategies else strategies).length)).Pairwise
          (· ≤ ·) :=
      pairwise_le_map_natRange _
        (fun a b hab => Nat.div_le_div_right (Nat.mul_le_mul_right 50 hab)) 0 k
    have hBpw : ((natRange 0 (if par then order (all.take mp) else all.take mp).length).map
        (fun j => 50 + (if par then j + 1 else j) * 50
          / (if par then order (all.take mp) else all.take mp).length)).Pairwise (· ≤ ·) := by
      refine pairwise_le_map_natRange _ (fun a b hab => ?_) 0 _
      have hq : (if par then a + 1 else a) ≤ (if par then b + 1 else b) := by
        cases par <;> simp <;> omega
      exact Nat.add_le_add_left (Nat.div_le_div_right (Nat.mul_le_mul_right 50 hq)) 50
    have hAlt : ∀ a ∈ (natRange 0 k).map (fun j => j * 50
        / (if strategies = [] then default_strategies else strategies).length), a < 50 := by
      intro a ha
      simp only [List.mem_map] at ha
      obtain ⟨j, hj, rfl⟩ := ha
      rw [mem_natRange] at hj
      rw [Nat.div_lt_iff_lt_mul hnpos]
      omega
    have hBge := (progress_tail_bounds par
      (if par then order (all.take mp) else all.take mp).length).1
    have hBle := (progress_tail_bounds par
      (if par then order (all.take mp) else all.take mp).length).2
    simp only [findStart, PlaylistFinder.update_progress, List.nil_append,
      List.singleton_append, List.filterMap_append, List.filterMap_cons,
      List.filterMap_nil, hA, hB, List.append_assoc]
    refine ⟨?_, ?_, ?_⟩
    · exact chainOfParts _ _ hApw hBpw hAlt hBge hBle
    · rfl
    · exact getLast_of_progress_shape _ _

theorem c9_witness :
    (stFindSeq0.progressTrace.filterMap Prod.snd).Chain' (· ≤ ·)
    ∧ (stFindSeq0.progressTrace.filterMap Prod.snd).head? = some 0
    ∧ (stFindSeq0.progressTrace.filterMap Prod.snd).getLast? = some 100 :=
  c9_progress_monotone api0 List.reverse "v" [.exact_title, .channel_playlists] 100 false
    (fun l => l.reverse_perm) [info1] stFindSeq0 (by decide)

/-- C2: for a fixed provider behaviour and any completion order that is a
permutation of the submitted candidates, a sequential-mode `find_playlists`
and a concurrent-mode `find_playlists` on the same input return permutations
of each other's playlist-ID lists — the same set of IDs, possibly in a
different order. -/
theorem c2_mode_equivalence (api : FinderApi) (order : List String → List String)
    (video_id : String) (strategies : List SearchStrategy) (mp : Nat)
    (hord : ∀ l : List String, (order l).Perm l) :
    ∀ fs ss fp sp,
      PlaylistFinder.find_playlists api order video_id strategies mp false false
        = .ok fs ss →
      PlaylistFinder.find_playlists api order video_id strategies mp true false
        = .ok fp sp →
      (fs.map (fun p => p.id)).Perm (fp.map (fun p => p.id)) := by
  intro fs ss fp sp h1 h2
  cases hv : api.get_video_info video_id with
  | none => simp [PlaylistFinder.find_playlists, hv] at h1
  | some vi =>
    obtain ⟨all, tr, k, hcollect, htr, hk, hnd⟩ :=
      collectLoop_spec api vi
        (if strategies = [] then default_strategies else strategies).length mp
        (if strategies = [] then default_strategies else strategies) 0 []
        (findStart vi) rfl List.nodup_nil
    have hndtake : (all.take mp).Nodup := hnd.sublist (List.take_sublist mp all)
    have hndord : (order (all.take mp)).Nodup := (hord (all.take mp)).symm.nodup hndtake
    have hrun1 := find_playlists_run api order video_id strategies mp false vi all _
      hv hcollect rfl rfl rfl rfl (by simpa using hndtake)
    have hrun2 := find_playlists_run api order video_id strategies mp true vi all _
      hv hcollect rfl rfl rfl rfl (by simpa using hndord)
    rw [hrun1] at h1
    rw [hrun2] at h2
    simp only [Bool.false_eq_true, if_false, if_true, FindOutcome.ok.injEq] at h1 h2
    obtain ⟨h1a, -⟩ := h1
    obtain ⟨h2a, -⟩ := h2
    subst h1a h2a
    exact (((hord (all.take mp)).filterMap
      (fun pid => verdict api video_id pid)).symm).map (fun p => p.id)

theorem c2_witness :
    (([info1].map (fun p => p.id)).Perm ([info1].map (fun p => p.id))) :=
  c2_mode_equivalence api0 List.reverse "v" [.exact_title, .channel_playlists] 100
    (fun l => l.reverse_perm) [info1] stFindSeq0 [info1] stFindPar0
    (by decide) (by decide)

/-- C8: in a completed `find_playlists` run (either mode, any permutation
completion order), the recorded sequence of membership-check submissions has
no duplicates — every candidate, even one surfaced by several strategies, is
submitted to the membership check at most once — and the final checked-ID set
is exactly the deduplicated candidate list that was verified (the membership
submissions). -/
theorem c8_candidate_checked_at_most_once (api : FinderApi)
    (order : List String → List String) (video_id : String)
    (strategies : List SearchStrategy) (mp : Nat) (par : Bool)
    (hord : ∀ l : List String, (order l).Perm l) :
    ∀ fs ss,
      PlaylistFinder.find_playlists api order video_id strategies mp par false
        = .ok fs ss →
      ss.membership_calls.Nodup
      ∧ ss.checked_playlist_ids = ss.membership_calls := by
  intro fs ss h
  cases hv : api.get_video_info video_id with
  | none => simp [PlaylistFinder.find_playlists, hv] at h
  | some vi =>
    obtain ⟨all, tr, k, hcollect, htr, hk, hnd⟩ :=
      collectLoop_spec api vi
        (if strategies = [] then default_strategies else strategies).length mp
        (if strategies = [] then default_strategies else strategies) 0 []
        (findStart vi) rfl List.nodup_nil
    have hndtake : (all.take mp).Nodup := hnd.sublist (List.take_sublist mp all)
    have hndord : (order (all.take mp)).Nodup := (hord (all.take mp)).symm.nodup hndtake
    have hndlist : (if par then order (all.take mp) else all.take mp).Nodup := by
      cases par
      · simpa using hndtake
      · simpa using hndord
    have hrun := find_playlists_run api order video_id strategies mp par vi all _
      hv hcollect rfl rfl rfl rfl hndlist
    rw [hrun] at h
    simp only [FindOutcome.ok.injEq] at h
    obtain ⟨-, hss⟩ := h
    subst hss
    exact ⟨hndlist, rfl⟩

theorem c8_witness :
    stFindPar0.membership_calls.Nodup
    ∧ stFindPar0.checked_playlist_ids = stFindPar0.membership_calls :=
  c8_candidate_checked_at_most_once api0 List.reverse "v"
    [.exact_title, .channel_playlists] 100 true (fun l => l.reverse_perm)
    [info1] stFindPar0 (by decide)

/-- C3: a completed sequential `find_playlists` run that returns one confirmed
playlist leaves `found_playlists` empty (the accumulator is reset but never
appended to), so `get_statistics` afterwards reports `playlists_found = 0`
instead of `1`, while `playlists_checked` correctly reports the two verified
candidates. -/
theorem c3_confirmed_count_reported_as_zero :
    PlaylistFinder.find_playlists api0 List.reverse "v"
        [.exact_title, .channel_playlists] 100 false false = .ok [info1] stFindSeq0
    ∧ [info1].length = 1
    ∧ (PlaylistFinder.get_statistics 0 ({} : CacheManager Nat) stFindSeq0).playlists_found
        = 0
    ∧ (PlaylistFinder.get_statistics 0 ({} : CacheManager Nat) stFindSeq0).playlists_checked
        = 2 :=
  ⟨by decide, rfl, rfl, rfl⟩
